import Mathlib

set_option maxHeartbeats 1000000

/-! Verification model of the Salesforce Validation Rules Bridge backend:
the OAuth login and callback routes and the CORS origin decision.
The repository carries two iterations of the auth routes file; both are
embedded: `loginA`/`callbackA` is the iteration that signals success with
`?login=success`, `loginB`/`callbackB` the iteration that signals success
with `?success=1`.  Outbound HTTP calls (token exchange, user-info fetch)
are modelled as oracle functions passed to the handlers; query-string
serialization and percent-encoding are abstracted by keeping query
parameters as key/value pairs on the redirect response.  The session
middleware guarantees a session object on every request, so the defensive
session-missing branches of the routes are not modelled. -/

/-- JavaScript truthiness of a possibly-absent string: `undefined` and the
empty string are falsy, every other string is truthy. -/
def jsTruthy : Option String → Bool
  | none => false
  | some s => s != ""

/-- JavaScript `x || d` for a possibly-absent string `x` with string default `d`. -/
def jsOr (x : Option String) (d : String) : String :=
  match x with
  | none => d
  | some s => if s == "" then d else s

/-- JavaScript `x || d` where `x` is a present string. -/
def jsOrS (x d : String) : String := if x == "" then d else x

/-- Model of the JS replace with the anchored trailing-slash pattern: drops
one trailing slash if present. -/
def stripTrailingSlash (s : String) : String :=
  if s.data.getLast? = some '/' then String.mk s.data.dropLast else s

/-- Server-side session record: the bag of fields the auth routes read and
write on the request session.  Absent fields are `none`; the authenticated
flag is modelled as a Bool that is `false` while absent. -/
structure Session where
  code_verifier : Option String := none
  domain_type : Option String := none
  custom_domain : Option String := none
  salesforce_domain : Option String := none
  access_token : Option String := none
  refresh_token : Option String := none
  instance_url : Option String := none
  username : Option String := none
  email : Option String := none
  userType : Option String := none
  authenticated : Bool := false
  deriving Repr, DecidableEq

/-- A fresh session with no fields set. -/
def Session.empty : Session := {}

/-- Configuration values the auth routes read. -/
structure Config where
  clientId : String := ""
  redirectUri : String := ""
  frontendUrl : String := ""
  deriving Repr, DecidableEq

/-- Boundary response of a route handler: a status-500 JSON error
(identified by its error code) or a redirect to `base` carrying the given
query parameters (serialization and percent-encoding abstracted). -/
inductive HttpResponse where
  | json500 (code : String)
  | redirect (base : String) (params : List (String × String))
  deriving Repr, DecidableEq

/-- Body of a successful token-endpoint response, as destructured by the
callback handlers.  Fields the provider may omit are optional. -/
structure TokenData where
  access_token : Option String := none
  refresh_token : Option String := none
  instance_url : Option String := none
  id : Option String := none
  deriving Repr, DecidableEq

/-- Failure of an outbound axios call, restricted to the parts the catch
blocks read: the optional OAuth error fields of the response body and the
JS error message. -/
structure AxiosFailure where
  error_description : Option String := none
  error : Option String := none
  message : String := ""
  deriving Repr, DecidableEq

/-- User identity payload as read by the callback handlers. -/
structure UserInfo where
  username : Option String := none
  email : Option String := none
  userType : Option String := none
  deriving Repr, DecidableEq

/-- Result of a login route: the HTTP response and the session object state
after the handler ran. -/
structure LoginOut where
  response : HttpResponse
  session : Session
  deriving Repr, DecidableEq

/-- Result of a callback route, instrumented with the outbound calls the
handler performed: `exchangeCalled` records the token URL, authorization
code and code verifier of the token-exchange request, if one was issued. -/
structure CallbackOut where
  response : HttpResponse
  session : Session
  exchangeCalled : Option (String × String × String) := none
  userInfoCalled : Bool := false
  deriving Repr, DecidableEq

/-- Verifier component of the recorded token-exchange call, if one happened. -/
def CallbackOut.exchVerifier (o : CallbackOut) : Option String :=
  o.exchangeCalled.map (fun t => t.2.2)

/-- Authorization endpoint chosen by the first login route iteration:
sandbox, or a custom domain taken verbatim from the query and prefixed with
the https scheme, else production. -/
def authUrlA (domainType : String) (customDomain : Option String) : String :=
  if domainType == "sandbox" then
    "https://test.salesforce.com/services/oauth2/authorize"
  else if domainType == "custom" && jsTruthy customDomain then
    "https://" ++ customDomain.getD "" ++ "/services/oauth2/authorize"
  else
    "https://login.salesforce.com/services/oauth2/authorize"

/-- First iteration of the login route.  The PKCE verifier and challenge are
passed in (the generator is a crypto source); `saveOk` says whether the
session save callback succeeded.  On save failure the handler answers with
a 500 JSON error instead of the redirect. -/
def loginA (cfg : Config) (domain customDomain : Option String)
    (codeVerifier codeChallenge : String) (saveOk : Bool) (s : Session) : LoginOut :=
  let domainType := jsOr domain "production"
  let authUrl := authUrlA domainType customDomain
  let s2 := { s with code_verifier := some codeVerifier,
                     domain_type := some domainType,
                     custom_domain := some (jsOr customDomain "") }
  if saveOk then
    { response := .redirect authUrl
        [("response_type", "code"), ("client_id", cfg.clientId),
         ("redirect_uri", cfg.redirectUri),
         ("scope", "api web refresh_token openid profile email"),
         ("code_challenge", codeChallenge),
         ("code_challenge_method", "S256"), ("prompt", "login")],
      session := s2 }
  else
    { response := .json500 "SESSION_SAVE_ERROR", session := s2 }

/-- Salesforce base domain chosen by the second login route iteration: a
non-empty custom domain is used verbatim (one trailing slash stripped),
else the configured sandbox or production domain. -/
def salesforceDomainB (domainType customDomain : String) : String :=
  if domainType == "custom" && customDomain != "" then
    stripTrailingSlash customDomain
  else if domainType == "sandbox" then
    "https://test.salesforce.com"
  else
    "https://login.salesforce.com"

/-- Second iteration of the login route.  On save failure it redirects to
the front end with an error query parameter. -/
def loginB (cfg : Config) (domain customDomain : Option String)
    (codeVerifier codeChallenge : String) (saveOk : Bool) (s : Session) : LoginOut :=
  let domainType := jsOr domain "production"
  let cd := jsOr customDomain ""
  let sfDomain := salesforceDomainB domainType cd
  let s2 := { s with salesforce_domain := some sfDomain,
                     domain_type := some domainType,
                     code_verifier := some codeVerifier }
  if saveOk then
    { response := .redirect (sfDomain ++ "/services/oauth2/authorize")
        [("response_type", "code"), ("client_id", cfg.clientId),
         ("redirect_uri", cfg.redirectUri), ("scope", "api refresh_token"),
         ("prompt", "login"), ("code_challenge", codeChallenge),
         ("code_challenge_method", "S256")],
      session := s2 }
  else
    { response := .redirect cfg.frontendUrl
        [("error", "Session initialization failed")],
      session := s2 }

/-- Error message the first callback iteration reports from a failed axios
call: response error_description, else response error code, else the
generic authentication-failed text. -/
def axiosMsgA (e : AxiosFailure) : String :=
  jsOr e.error_description (jsOr e.error "Authentication failed")

/-- Error message the second callback iteration reports from a failed axios
call: response error_description, else the JS error message, else the
generic authentication-failed text. -/
def axiosMsgB (e : AxiosFailure) : String :=
  jsOr e.error_description (jsOrS e.message "Authentication failed")

/-- Token endpoint chosen by the first callback iteration from the domain
type and custom domain stored in the session. -/
def sfTokenUrlA (domainType customDomain : String) : String :=
  if domainType == "sandbox" then
    "https://test.salesforce.com/services/oauth2/token"
  else if domainType == "custom" && customDomain != "" then
    "https://" ++ customDomain ++ "/services/oauth2/token"
  else
    "https://login.salesforce.com/services/oauth2/token"

/-- First iteration of the OAuth callback route.  `exch` is the token
endpoint (called with token URL, authorization code and code verifier) and
`fetchUser` the identity endpoint (called with the id URL and access
token); both are oracles for the outbound axios calls. -/
def callbackA (cfg : Config) (code error error_description : Option String)
    (exch : String → String → String → Except AxiosFailure TokenData)
    (fetchUser : Option String → Option String → Except AxiosFailure UserInfo)
    (saveOk : Bool) (s : Session) : CallbackOut :=
  let base := cfg.frontendUrl ++ "/"
  if jsTruthy error then
    { response := .redirect base
        [("error", jsOr error_description (jsOr error ""))],
      session := s }
  else if !jsTruthy code then
    { response := .redirect base [("error", "no_code")], session := s }
  else if !jsTruthy s.code_verifier then
    { response := .redirect base [("error", "session_expired")], session := s }
  else
    let codeVerifier := s.code_verifier.getD ""
    let domainType := jsOr s.domain_type "production"
    let customDomain := jsOr s.custom_domain ""
    let tokenUrl := sfTokenUrlA domainType customDomain
    let called := some (tokenUrl, code.getD "", codeVerifier)
    match exch tokenUrl (code.getD "") codeVerifier with
    | .error e =>
      { response := .redirect base [("error", axiosMsgA e)],
        session := s, exchangeCalled := called }
    | .ok tok =>
      match fetchUser tok.id tok.access_token with
      | .error e =>
        { response := .redirect base [("error", axiosMsgA e)],
          session := s, exchangeCalled := called, userInfoCalled := true }
      | .ok ui =>
        let s2 := { s with
          access_token := tok.access_token,
          refresh_token := tok.refresh_token,
          instance_url := tok.instance_url,
          authenticated := true,
          username := some (jsOr ui.username "User"),
          email := some (jsOr ui.email ""),
          userType := some (jsOr ui.userType "Standard"),
          domain_type := some domainType,
          code_verifier := none,
          custom_domain := none }
        if saveOk then
          { response := .redirect base [("login", "success")],
            session := s2, exchangeCalled := called, userInfoCalled := true }
        else
          { response := .redirect base [("error", "session_save_failed")],
            session := s2, exchangeCalled := called, userInfoCalled := true }

/-- Second iteration of the OAuth callback route.  It validates that the
token response carries a truthy access token and instance URL before
mutating the session, and strips one trailing slash from the instance URL. -/
def callbackB (cfg : Config) (code error error_description : Option String)
    (exch : String → String → String → Except AxiosFailure TokenData)
    (fetchUser : Option String → Option String → Except AxiosFailure UserInfo)
    (saveOk : Bool) (s : Session) : CallbackOut :=
  let base := cfg.frontendUrl
  if jsTruthy error then
    { response := .redirect base
        [("error", jsOr error_description (jsOr error ""))],
      session := s }
  else if !jsTruthy code then
    { response := .redirect base [("error", "No authorization code received")],
      session := s }
  else
    let sfDomain := jsOr s.salesforce_domain "https://login.salesforce.com"
    if !jsTruthy s.code_verifier then
      { response := .redirect base
          [("error", "Session expired. Please try logging in again.")],
        session := s }
    else
      let codeVerifier := s.code_verifier.getD ""
      let tokenUrl := sfDomain ++ "/services/oauth2/token"
      let called := some (tokenUrl, code.getD "", codeVerifier)
      match exch tokenUrl (code.getD "") codeVerifier with
      | .error e =>
        { response := .redirect base [("error", axiosMsgB e)],
          session := s, exchangeCalled := called }
      | .ok tok =>
        if !(jsTruthy tok.access_token && jsTruthy tok.instance_url) then
          { response := .redirect base
              [("error", "Token response missing access_token or instance_url")],
            session := s, exchangeCalled := called }
        else
          match fetchUser tok.id tok.access_token with
          | .error e =>
            { response := .redirect base [("error", axiosMsgB e)],
              session := s, exchangeCalled := called, userInfoCalled := true }
          | .ok ui =>
            let s2 := { s with
              access_token := tok.access_token,
              instance_url := some (stripTrailingSlash (tok.instance_url.getD "")),
              salesforce_domain := some sfDomain,
              username := ui.username,
              email := ui.email,
              userType := ui.userType,
              authenticated := true,
              code_verifier := none }
            if saveOk then
              { response := .redirect base [("success", "1")],
                session := s2, exchangeCalled := called, userInfoCalled := true }
            else
              { response := .redirect base [("error", "Failed to save session")],
                session := s2, exchangeCalled := called, userInfoCalled := true }

/-- CORS allow-list of the named backend server file. -/
def corsAllowedOrigins (frontendUrl : String) : List String :=
  [frontendUrl, "https://salesforce-validation-bridge.vercel.app",
   "http://localhost:5173", "http://localhost:3000"]

/-- Outcome of the CORS origin decision: whether the request is allowed and
whether a warning was logged. -/
structure CorsDecision where
  allow : Bool
  warned : Bool
  deriving Repr, DecidableEq

/-- CORS origin decision of the named backend server file: requests with no
origin or an allow-listed origin pass silently; any other origin is logged
with a warning and still allowed. -/
def corsOriginServer (frontendUrl : String) (origin : Option String) : CorsDecision :=
  if !jsTruthy origin || (corsAllowedOrigins frontendUrl).contains (origin.getD "") then
    { allow := true, warned := false }
  else
    { allow := true, warned := true }

/-- CORS allow-list of the second server iteration, which adds the
localhost:5174 origin. -/
def corsAllowedOrigins2 (frontendUrl : String) : List String :=
  [frontendUrl, "https://salesforce-validation-bridge.vercel.app",
   "http://localhost:5173", "http://localhost:3000", "http://localhost:5174"]

/-- Model of the anchored Vercel-preview regex test of the second server
iteration: the origin starts with the project prefix, ends with the Vercel
suffix, and is long enough that the two do not overlap. -/
def isVercelPreview (o : String) : Bool :=
  o.startsWith "https://salesforce-validation-bridge" && o.endsWith ".vercel.app"
    && decide ("https://salesforce-validation-bridge".length + ".vercel.app".length ≤ o.length)

/-- CORS origin decision of the second server iteration: allow-listed and
Vercel-preview origins pass silently; any other origin is logged with a
warning and still allowed. -/
def corsOriginFixed (frontendUrl : String) (origin : Option String) : CorsDecision :=
  if !jsTruthy origin then
    { allow := true, warned := false }
  else
    let o := origin.getD ""
    if (corsAllowedOrigins2 frontendUrl).contains o || isVercelPreview o then
      { allow := true, warned := false }
    else
      { allow := true, warned := true }

/-- Modelled from the spec: the three states of the OAuth flow state machine
of section 4.2, read off a session from its data: `Authenticated` when the
authenticated flag is set, else `AwaitingCallback` while a pending code
verifier is stored, else `Anonymous`. -/
inductive FlowState where
  | Anonymous
  | AwaitingCallback
  | Authenticated
  deriving Repr, DecidableEq

/-- Modelled from the spec: which flow state a session is in. -/
def sessionState (s : Session) : FlowState :=
  if s.authenticated then .Authenticated
  else if jsTruthy s.code_verifier then .AwaitingCallback
  else .Anonymous

/-- Absent values are falsy. -/
theorem jsTruthy_none : jsTruthy none = false := rfl

/-- Present values are truthy exactly when non-empty. -/
theorem jsTruthy_some (s : String) : jsTruthy (some s) = (s != "") := rfl

/-- Truthiness of the defaulted custom-domain string agrees with truthiness
of the raw query parameter. -/
theorem jsOr_empty_ne (x : Option String) : (jsOr x "" != "") = jsTruthy x := by
  cases x with
  | none => rfl
  | some s => by_cases h : s = "" <;> simp [jsOr, jsTruthy, h]

/-- Concrete configuration used by concrete-input theorems. -/
def cfgW : Config :=
  { clientId := "cid", redirectUri := "https://app/oauth/callback",
    frontendUrl := "https://front" }

/-- Token-exchange oracle that always fails with an empty failure record. -/
def exchNever : String → String → String → Except AxiosFailure TokenData :=
  fun _ _ _ => .error {}

/-- User-info oracle that always fails with an empty failure record. -/
def fetchNever : Option String → Option String → Except AxiosFailure UserInfo :=
  fun _ _ => .error {}

/-- Complete token body used by the always-successful exchange oracle. -/
def tokW : TokenData :=
  { access_token := some "tok", refresh_token := some "ref",
    instance_url := some "https://inst.example", id := some "https://id.example" }

/-- Token-exchange oracle that always succeeds with a complete token body. -/
def exchOkW : String → String → String → Except AxiosFailure TokenData :=
  fun _ _ _ => .ok tokW

/-- Token-exchange oracle whose successful body omits instance_url. -/
def exchNoInstW : String → String → String → Except AxiosFailure TokenData :=
  fun _ _ _ => .ok { access_token := some "tok", id := some "https://id.example" }

/-- User-info oracle that always succeeds. -/
def fetchOkW : Option String → Option String → Except AxiosFailure UserInfo :=
  fun _ _ => .ok { username := some "user", email := some "mail",
                   userType := some "Standard" }

/-- Session holding a pending code verifier, as left by a production login. -/
def sAwaitW : Session :=
  { code_verifier := some "v1", domain_type := some "production",
    custom_domain := some "" }

/-- C1: the login route does not validate the custom domain host.  Invoked
with domain=custom and customDomain=evil.com, both route iterations answer
with a redirect to an authorization URL built from evil.com instead of the
validation error the spec requires. -/
theorem c1_custom_domain_not_validated :
    (loginA cfgW (some "custom") (some "evil.com") "ver" "chal" true
        Session.empty).response
      = .redirect "https://evil.com/services/oauth2/authorize"
          [("response_type", "code"), ("client_id", "cid"),
           ("redirect_uri", "https://app/oauth/callback"),
           ("scope", "api web refresh_token openid profile email"),
           ("code_challenge", "chal"),
           ("code_challenge_method", "S256"), ("prompt", "login")]
    ∧ (loginB cfgW (some "custom") (some "evil.com") "ver" "chal" true
        Session.empty).response
      = .redirect "evil.com/services/oauth2/authorize"
          [("response_type", "code"), ("client_id", "cid"),
           ("redirect_uri", "https://app/oauth/callback"),
           ("scope", "api refresh_token"), ("prompt", "login"),
           ("code_challenge", "chal"), ("code_challenge_method", "S256")] := by
  refine ⟨rfl, ?_⟩
  decide

/-- C9: the CORS origin decision allows every request.  In both server
iterations no origin is ever denied, and in the named server file an origin
is warned about exactly when it is truthy and not on the allow-list. -/
theorem c9_cors_always_allows (frontendUrl : String) (origin : Option String) :
    (corsOriginServer frontendUrl origin).allow = true
    ∧ (corsOriginFixed frontendUrl origin).allow = true
    ∧ (corsOriginServer frontendUrl origin).warned
        = !(!jsTruthy origin
            || (corsAllowedOrigins frontendUrl).contains (origin.getD "")) := by
  refine ⟨?_, ?_, ?_⟩
  · unfold corsOriginServer; split <;> rfl
  · simp only [corsOriginFixed]
    split
    · rfl
    · split <;> rfl
  · unfold corsOriginServer
    cases h : (!jsTruthy origin
        || (corsAllowedOrigins frontendUrl).contains (origin.getD "")) <;> simp [h]

/-- C10: a login request whose domain parameter defaults to anything other
than sandbox, and is not custom with a truthy customDomain, builds the
authorization URL against the production endpoint in both route iterations;
in particular domain=custom with an empty customDomain silently falls back
to production. -/
theorem c10_login_defaults_to_production (cfg : Config)
    (domain customDomain : Option String) (v c : String) (s : Session)
    (hsb : jsOr domain "production" ≠ "sandbox")
    (hcu : ¬(jsOr domain "production" = "custom" ∧ jsTruthy customDomain)) :
    (loginA cfg domain customDomain v c true s).response
      = .redirect "https://login.salesforce.com/services/oauth2/authorize"
          [("response_type", "code"), ("client_id", cfg.clientId),
           ("redirect_uri", cfg.redirectUri),
           ("scope", "api web refresh_token openid profile email"),
           ("code_challenge", c),
           ("code_challenge_method", "S256"), ("prompt", "login")]
    ∧ (loginB cfg domain customDomain v c true s).response
      = .redirect "https://login.salesforce.com/services/oauth2/authorize"
          [("response_type", "code"), ("client_id", cfg.clientId),
           ("redirect_uri", cfg.redirectUri), ("scope", "api refresh_token"),
           ("prompt", "login"), ("code_challenge", c),
           ("code_challenge_method", "S256")] := by
  have hsb2 : (jsOr domain "production" == "sandbox") = false := by
    simpa using hsb
  have hcu2 : ((jsOr domain "production" == "custom") && jsTruthy customDomain)
      = false := by
    by_cases hdt : jsOr domain "production" = "custom"
    · have hf : jsTruthy customDomain = false := by
        cases h : jsTruthy customDomain
        · rfl
        · exact absurd ⟨hdt, h⟩ hcu
      simp [hf]
    · simp [hdt]
  constructor
  · simp [loginA, authUrlA, hsb2, hcu2]
  · simp [loginB, salesforceDomainB, hsb2, jsOr_empty_ne, hcu2]

/-- Witness for c10_login_defaults_to_production at domain=custom with an
empty customDomain. -/
theorem c10_login_defaults_to_production_witness :
    (loginA cfgW (some "custom") (some "") "v" "c" true Session.empty).response
      = .redirect "https://login.salesforce.com/services/oauth2/authorize"
          [("response_type", "code"), ("client_id", cfgW.clientId),
           ("redirect_uri", cfgW.redirectUri),
           ("scope", "api web refresh_token openid profile email"),
           ("code_challenge", "c"),
           ("code_challenge_method", "S256"), ("prompt", "login")]
    ∧ (loginB cfgW (some "custom") (some "") "v" "c" true Session.empty).response
      = .redirect "https://login.salesforce.com/services/oauth2/authorize"
          [("response_type", "code"), ("client_id", cfgW.clientId),
           ("redirect_uri", cfgW.redirectUri), ("scope", "api refresh_token"),
           ("prompt", "login"), ("code_challenge", "c"),
           ("code_challenge_method", "S256")] :=
  c10_login_defaults_to_production cfgW (some "custom") (some "") "v" "c"
    Session.empty (by decide) (by decide)

/-- C2: a callback carrying an authorization code and no provider error, on
a session with no stored code verifier, answers with the session-expired
error and issues no token-exchange request, in both iterations. -/
theorem c2_no_verifier_session_expired (cfg : Config)
    (code error error_description : Option String)
    (exch : String → String → String → Except AxiosFailure TokenData)
    (fetchUser : Option String → Option String → Except AxiosFailure UserInfo)
    (saveOk : Bool) (s : Session)
    (hcode : jsTruthy code = true) (herr : jsTruthy error = false)
    (hver : s.code_verifier = none) :
    callbackA cfg code error error_description exch fetchUser saveOk s
      = { response := .redirect (cfg.frontendUrl ++ "/")
            [("error", "session_expired")],
          session := s }
    ∧ callbackB cfg code error error_description exch fetchUser saveOk s
      = { response := .redirect cfg.frontendUrl
            [("error", "Session expired. Please try logging in again.")],
          session := s } := by
  constructor
  · simp [callbackA, herr, hcode, hver, jsTruthy_none]
  · simp [callbackB, herr, hcode, hver, jsTruthy_none]

/-- Witness for c2_no_verifier_session_expired on a fresh session. -/
theorem c2_no_verifier_session_expired_witness :
    callbackA cfgW (some "abc") none none exchNever fetchNever true Session.empty
      = { response := .redirect (cfgW.frontendUrl ++ "/")
            [("error", "session_expired")],
          session := Session.empty }
    ∧ callbackB cfgW (some "abc") none none exchNever fetchNever true Session.empty
      = { response := .redirect cfgW.frontendUrl
            [("error", "Session expired. Please try logging in again.")],
          session := Session.empty } :=
  c2_no_verifier_session_expired cfgW (some "abc") none none exchNever fetchNever
    true Session.empty (by decide) (by decide) rfl

/-- C3 (amended): whenever a callback answers with its success redirect,
the resulting session holds no code verifier and is authenticated, in both
route iterations. -/
theorem c3_success_clears_verifier (cfg : Config)
    (code error error_description : Option String)
    (exch : String → String → String → Except AxiosFailure TokenData)
    (fetchUser : Option String → Option String → Except AxiosFailure UserInfo)
    (saveOk : Bool) (s : Session) :
    ((callbackA cfg code error error_description exch fetchUser saveOk s).response
        = .redirect (cfg.frontendUrl ++ "/") [("login", "success")] →
      (callbackA cfg code error error_description exch fetchUser saveOk s).session.code_verifier
          = none
        ∧ (callbackA cfg code error error_description exch fetchUser saveOk s).session.authenticated
          = true)
    ∧ ((callbackB cfg code error error_description exch fetchUser saveOk s).response
        = .redirect cfg.frontendUrl [("success", "1")] →
      (callbackB cfg code error error_description exch fetchUser saveOk s).session.code_verifier
          = none
        ∧ (callbackB cfg code error error_description exch fetchUser saveOk s).session.authenticated
          = true) := by
  constructor
  · simp only [callbackA]
    repeat' split
    all_goals simp
  · simp only [callbackB]
    repeat' split
    all_goals simp

/-- Witness for c3_success_clears_verifier at a successful callback. -/
theorem c3_success_clears_verifier_witness :
    ((callbackA cfgW (some "code") none none exchOkW fetchOkW true sAwaitW).session.code_verifier
        = none
      ∧ (callbackA cfgW (some "code") none none exchOkW fetchOkW true sAwaitW).session.authenticated
        = true)
    ∧ ((callbackB cfgW (some "code") none none exchOkW fetchOkW true sAwaitW).session.code_verifier
        = none
      ∧ (callbackB cfgW (some "code") none none exchOkW fetchOkW true sAwaitW).session.authenticated
        = true) :=
  ⟨(c3_success_clears_verifier cfgW (some "code") none none exchOkW fetchOkW true
      sAwaitW).1 (by decide),
   (c3_success_clears_verifier cfgW (some "code") none none exchOkW fetchOkW true
      sAwaitW).2 (by decide)⟩

/-- C3 is refuted as stated: after login, a successful callback, and a
second login on the same session (three completed operations), the session
holds a code verifier and an access token simultaneously. -/
theorem c3_counterexample_relogin_coexistence :
    (loginA cfgW (some "production") none "v2" "c2" true
        (callbackA cfgW (some "code") none none exchOkW fetchOkW true
          (loginA cfgW (some "production") none "v1" "c1" true
            Session.empty).session).session).session.code_verifier = some "v2"
    ∧ (loginA cfgW (some "production") none "v2" "c2" true
        (callbackA cfgW (some "code") none none exchOkW fetchOkW true
          (loginA cfgW (some "production") none "v1" "c1" true
            Session.empty).session).session).session.access_token = some "tok" := by
  constructor <;> rfl

/-- C6 (amended): when the identity provider signals an OAuth error, both
callback iterations pass the provider error message (error_description if
truthy, else the error code) through to the front end and leave the session
entirely unchanged; in particular the pending code verifier is not cleared
and no token exchange is issued. -/
theorem c6_provider_error_passthrough (cfg : Config)
    (code error error_description : Option String)
    (exch : String → String → String → Except AxiosFailure TokenData)
    (fetchUser : Option String → Option String → Except AxiosFailure UserInfo)
    (saveOk : Bool) (s : Session)
    (herr : jsTruthy error = true) :
    callbackA cfg code error error_description exch fetchUser saveOk s
      = { response := .redirect (cfg.frontendUrl ++ "/")
            [("error", jsOr error_description (jsOr error ""))],
          session := s }
    ∧ callbackB cfg code error error_description exch fetchUser saveOk s
      = { response := .redirect cfg.frontendUrl
            [("error", jsOr error_description (jsOr error ""))],
          session := s } := by
  constructor
  · simp [callbackA, herr]
  · simp [callbackB, herr]

/-- Witness for c6_provider_error_passthrough at a concrete provider error. -/
theorem c6_provider_error_passthrough_witness :
    callbackA cfgW none (some "access_denied") (some "User denied access")
        exchNever fetchNever true sAwaitW
      = { response := .redirect (cfgW.frontendUrl ++ "/")
            [("error", jsOr (some "User denied access") (jsOr (some "access_denied") ""))],
          session := sAwaitW }
    ∧ callbackB cfgW none (some "access_denied") (some "User denied access")
        exchNever fetchNever true sAwaitW
      = { response := .redirect cfgW.frontendUrl
            [("error", jsOr (some "User denied access") (jsOr (some "access_denied") ""))],
          session := sAwaitW } :=
  c6_provider_error_passthrough cfgW none (some "access_denied")
    (some "User denied access") exchNever fetchNever true sAwaitW (by decide)

/-- C6 is refuted in its Anonymous conjunct: after a provider-error
callback the session still holds the pending code verifier (so it is not
in the Anonymous state), and a subsequent callback carrying a code issues a
token exchange with that very verifier — the verifier is still usable. -/
theorem c6_counterexample_verifier_still_usable :
    (callbackA cfgW none (some "access_denied") (some "User denied access")
        exchNever fetchNever true sAwaitW).session.code_verifier = some "v1"
    ∧ sessionState (callbackA cfgW none (some "access_denied")
        (some "User denied access") exchNever fetchNever true sAwaitW).session
      ≠ FlowState.Anonymous
    ∧ (callbackA cfgW (some "code") none none exchNever fetchNever true
        (callbackA cfgW none (some "access_denied") (some "User denied access")
          exchNever fetchNever true sAwaitW).session).exchVerifier = some "v1" := by
  refine ⟨rfl, by decide, rfl⟩

/-- C5 (amended): when the token exchange fails, or the identity fetch
fails after a successful exchange, both callback iterations leave the
session entirely unchanged (so it is never partially populated) and report
the upstream error message to the caller; the session keeps its pending
code verifier instead of transitioning to Anonymous. -/
theorem c5_upstream_failure_leaves_session (cfg : Config)
    (code error error_description : Option String)
    (exch : String → String → String → Except AxiosFailure TokenData)
    (fetchUser : Option String → Option String → Except AxiosFailure UserInfo)
    (saveOk : Bool) (s : Session) (e : AxiosFailure) (tok : TokenData)
    (hcode : jsTruthy code = true) (herr : jsTruthy error = false)
    (hver : jsTruthy s.code_verifier = true) :
    ((∀ u c v, exch u c v = .error e) →
      callbackA cfg code error error_description exch fetchUser saveOk s
        = { response := .redirect (cfg.frontendUrl ++ "/")
              [("error", axiosMsgA e)],
            session := s,
            exchangeCalled := some (sfTokenUrlA (jsOr s.domain_type "production")
              (jsOr s.custom_domain ""), code.getD "", s.code_verifier.getD "") })
    ∧ ((∀ u c v, exch u c v = .ok tok) → (∀ i t, fetchUser i t = .error e) →
      callbackA cfg code error error_description exch fetchUser saveOk s
        = { response := .redirect (cfg.frontendUrl ++ "/")
              [("error", axiosMsgA e)],
            session := s,
            exchangeCalled := some (sfTokenUrlA (jsOr s.domain_type "production")
              (jsOr s.custom_domain ""), code.getD "", s.code_verifier.getD ""),
            userInfoCalled := true })
    ∧ ((∀ u c v, exch u c v = .error e) →
      callbackB cfg code error error_description exch fetchUser saveOk s
        = { response := .redirect cfg.frontendUrl [("error", axiosMsgB e)],
            session := s,
            exchangeCalled := some ((jsOr s.salesforce_domain
                "https://login.salesforce.com") ++ "/services/oauth2/token",
              code.getD "", s.code_verifier.getD "") })
    ∧ ((∀ u c v, exch u c v = .ok tok) →
        jsTruthy tok.access_token = true → jsTruthy tok.instance_url = true →
        (∀ i t, fetchUser i t = .error e) →
      callbackB cfg code error error_description exch fetchUser saveOk s
        = { response := .redirect cfg.frontendUrl [("error", axiosMsgB e)],
            session := s,
            exchangeCalled := some ((jsOr s.salesforce_domain
                "https://login.salesforce.com") ++ "/services/oauth2/token",
              code.getD "", s.code_verifier.getD ""),
            userInfoCalled := true }) := by
  refine ⟨?_, ?_, ?_, ?_⟩
  · intro hex
    simp [callbackA, herr, hcode, hver, hex]
  · intro hex hfu
    simp [callbackA, herr, hcode, hver, hex, hfu]
  · intro hex
    simp [callbackB, herr, hcode, hver, hex]
  · intro hex hat hiu hfu
    simp [callbackB, herr, hcode, hver, hex, hat, hiu, hfu]

/-- Witness for c5_upstream_failure_leaves_session with concrete failing
oracles. -/
theorem c5_upstream_failure_leaves_session_witness :
    (callbackA cfgW (some "code") none none exchNever fetchNever true sAwaitW
        = { response := .redirect (cfgW.frontendUrl ++ "/")
              [("error", axiosMsgA {})],
            session := sAwaitW,
            exchangeCalled := some (sfTokenUrlA (jsOr sAwaitW.domain_type "production")
              (jsOr sAwaitW.custom_domain ""), (some "code" : Option String).getD "",
              sAwaitW.code_verifier.getD "") })
    ∧ (callbackA cfgW (some "code") none none exchOkW fetchNever true sAwaitW
        = { response := .redirect (cfgW.frontendUrl ++ "/")
              [("error", axiosMsgA {})],
            session := sAwaitW,
            exchangeCalled := some (sfTokenUrlA (jsOr sAwaitW.domain_type "production")
              (jsOr sAwaitW.custom_domain ""), (some "code" : Option String).getD "",
              sAwaitW.code_verifier.getD ""),
            userInfoCalled := true })
    ∧ (callbackB cfgW (some "code") none none exchNever fetchNever true sAwaitW
        = { response := .redirect cfgW.frontendUrl [("error", axiosMsgB {})],
            session := sAwaitW,
            exchangeCalled := some ((jsOr sAwaitW.salesforce_domain
                "https://login.salesforce.com") ++ "/services/oauth2/token",
              (some "code" : Option String).getD "", sAwaitW.code_verifier.getD "") })
    ∧ (callbackB cfgW (some "code") none none exchOkW fetchNever true sAwaitW
        = { response := .redirect cfgW.frontendUrl [("error", axiosMsgB {})],
            session := sAwaitW,
            exchangeCalled := some ((jsOr sAwaitW.salesforce_domain
                "https://login.salesforce.com") ++ "/services/oauth2/token",
              (some "code" : Option String).getD "", sAwaitW.code_verifier.getD ""),
            userInfoCalled := true }) :=
  ⟨(c5_upstream_failure_leaves_session cfgW (some "code") none none exchNever
      fetchNever true sAwaitW {} tokW (by decide) (by decide) (by decide)).1
      (fun _ _ _ => rfl),
   (c5_upstream_failure_leaves_session cfgW (some "code") none none exchOkW
      fetchNever true sAwaitW {} tokW (by decide) (by decide) (by decide)).2.1
      (fun _ _ _ => rfl) (fun _ _ => rfl),
   (c5_upstream_failure_leaves_session cfgW (some "code") none none exchNever
      fetchNever true sAwaitW {} tokW (by decide) (by decide) (by decide)).2.2.1
      (fun _ _ _ => rfl),
   (c5_upstream_failure_leaves_session cfgW (some "code") none none exchOkW
      fetchNever true sAwaitW {} tokW (by decide) (by decide) (by decide)).2.2.2
      (fun _ _ _ => rfl) (by decide) (by decide) (fun _ _ => rfl)⟩

/-- C5 is refuted in its Anonymous conjunct: after a failed token exchange
the session still holds the pending code verifier, so it remains in the
AwaitingCallback state rather than transitioning to Anonymous. -/
theorem c5_counterexample_not_anonymous :
    (callbackA cfgW (some "code") none none exchNever fetchNever true
        sAwaitW).session = sAwaitW
    ∧ sessionState (callbackA cfgW (some "code") none none exchNever fetchNever
        true sAwaitW).session = FlowState.AwaitingCallback
    ∧ sessionState (callbackA cfgW (some "code") none none exchNever fetchNever
        true sAwaitW).session ≠ FlowState.Anonymous := by
  refine ⟨rfl, rfl, by decide⟩

/-- C4 (amended): whenever the second callback iteration mutates the
session at all, it sets the authenticated flag together with a non-empty
access token and a present instance host, because it validates the token
response before storing.  (The first iteration stores whatever the token
response contained, with no check.) -/
theorem c4_callbackB_sets_auth_with_fields (cfg : Config)
    (code error error_description : Option String)
    (exch : String → String → String → Except AxiosFailure TokenData)
    (fetchUser : Option String → Option String → Except AxiosFailure UserInfo)
    (saveOk : Bool) (s : Session)
    (hmut : (callbackB cfg code error error_description exch fetchUser saveOk s).session
      ≠ s) :
    (callbackB cfg code error error_description exch fetchUser saveOk s).session.authenticated
      = true
    ∧ (∃ t, (callbackB cfg code error error_description exch fetchUser saveOk s).session.access_token
        = some t ∧ t ≠ "")
    ∧ (∃ u, (callbackB cfg code error error_description exch fetchUser saveOk s).session.instance_url
        = some u) := by
  cases hE : jsTruthy error with
  | true => simp [callbackB, hE] at hmut
  | false =>
    cases hC : jsTruthy code with
    | false => simp [callbackB, hE, hC] at hmut
    | true =>
      cases hV : jsTruthy s.code_verifier with
      | false => simp [callbackB, hE, hC, hV] at hmut
      | true =>
        rcases hX : exch ((jsOr s.salesforce_domain "https://login.salesforce.com")
            ++ "/services/oauth2/token") (code.getD "") (s.code_verifier.getD "")
          with e | tok
        · simp [callbackB, hE, hC, hV, hX] at hmut
        · cases hT : (jsTruthy tok.access_token && jsTruthy tok.instance_url) with
          | false => simp [callbackB, hE, hC, hV, hX, hT] at hmut
          | true =>
            rw [Bool.and_eq_true] at hT
            obtain ⟨hat, hiu⟩ := hT
            rcases hF : fetchUser tok.id tok.access_token with e | ui
            · simp [callbackB, hE, hC, hV, hX, hat, hiu, hF] at hmut
            · rcases hA : tok.access_token with _ | t
              · rw [hA] at hat
                exact absurd hat (by decide)
              · have ht : t ≠ "" := by
                  rw [hA] at hat
                  simpa [jsTruthy_some] using hat
                have hts : (t != "") = true := by simpa using ht
                have hF2 : fetchUser tok.id (some t) = Except.ok ui := by
                  rw [← hA]
                  exact hF
                cases saveOk <;>
                  refine ⟨?_, ⟨t, ?_, ht⟩,
                    ⟨stripTrailingSlash (tok.instance_url.getD ""), ?_⟩⟩ <;>
                  simp [callbackB, hE, hC, hV, hX, hat, hiu, hF, hA, jsTruthy_some,
                    hts, hF2]

/-- Witness for c4_callbackB_sets_auth_with_fields at a successful
callback. -/
theorem c4_callbackB_sets_auth_with_fields_witness :
    (callbackB cfgW (some "code") none none exchOkW fetchOkW true
        sAwaitW).session.authenticated = true
    ∧ (∃ t, (callbackB cfgW (some "code") none none exchOkW fetchOkW true
        sAwaitW).session.access_token = some t ∧ t ≠ "")
    ∧ (∃ u, (callbackB cfgW (some "code") none none exchOkW fetchOkW true
        sAwaitW).session.instance_url = some u) :=
  c4_callbackB_sets_auth_with_fields cfgW (some "code") none none exchOkW
    fetchOkW true sAwaitW (by decide)

/-- C4 is refuted as stated: the first callback iteration performs no check
on the token response, so with a token response that omits instance_url it
sets authenticated=true while the instance host stays absent. -/
theorem c4_counterexample_auth_without_instance :
    (callbackA cfgW (some "code") none none exchNoInstW fetchOkW true
        sAwaitW).session.authenticated = true
    ∧ (callbackA cfgW (some "code") none none exchNoInstW fetchOkW true
        sAwaitW).session.instance_url = none := by
  exact ⟨rfl, rfl⟩

/-- C7 (amended): every completed callback of the second route iteration
redirects to the front end carrying exactly one outcome parameter: either
success=1 or a single error parameter.  (The first iteration instead
signals success with login=success.) -/
theorem c7_callbackB_outcome_params (cfg : Config)
    (code error error_description : Option String)
    (exch : String → String → String → Except AxiosFailure TokenData)
    (fetchUser : Option String → Option String → Except AxiosFailure UserInfo)
    (saveOk : Bool) (s : Session) :
    (callbackB cfg code error error_description exch fetchUser saveOk s).response
        = .redirect cfg.frontendUrl [("success", "1")]
    ∨ ∃ m, (callbackB cfg code error error_description exch fetchUser saveOk s).response
        = .redirect cfg.frontendUrl [("error", m)] := by
  simp only [callbackB]
  repeat' split
  all_goals first
    | exact Or.inl rfl
    | exact Or.inr ⟨_, rfl⟩

/-- C7 is refuted as stated: the first callback iteration completes a
successful callback with the outcome parameter login=success, which is
neither success=1 nor an error parameter. -/
theorem c7_counterexample_login_success_param :
    (callbackA cfgW (some "code") none none exchOkW fetchOkW true
        sAwaitW).response
      = .redirect "https://front/" [("login", "success")]
    ∧ (callbackA cfgW (some "code") none none exchOkW fetchOkW true
        sAwaitW).response
      ≠ .redirect "https://front/" [("success", "1")] := by
  refine ⟨rfl, by decide⟩

/-- C8: a second login on the same session overwrites the pending verifier
and domain, the following callback issues its token exchange with the most
recent verifier only, and when the provider accepts only the first, stale,
verifier the callback fails with the upstream error and leaves the session
unchanged.  Stated for both route iterations. -/
theorem c8_second_login_overwrites (cfg : Config)
    (d1 cd1 d2 cd2 code : Option String) (v1 c1 v2 c2 : String)
    (exch : String → String → String → Except AxiosFailure TokenData)
    (fetchUser : Option String → Option String → Except AxiosFailure UserInfo)
    (e : AxiosFailure) (s0 s1 s2 t1 t2 : Session)
    (hcode : jsTruthy code = true) (hv2 : v2 ≠ "") (hne : v2 ≠ v1)
    (hstale : ∀ u c v, v ≠ v1 → exch u c v = .error e)
    (hs1 : s1 = (loginA cfg d1 cd1 v1 c1 true s0).session)
    (hs2 : s2 = (loginA cfg d2 cd2 v2 c2 true s1).session)
    (ht1 : t1 = (loginB cfg d1 cd1 v1 c1 true s0).session)
    (ht2 : t2 = (loginB cfg d2 cd2 v2 c2 true t1).session) :
    s2.code_verifier = some v2
    ∧ s2.domain_type = some (jsOr d2 "production")
    ∧ (callbackA cfg code none none exch fetchUser true s2).exchVerifier = some v2
    ∧ (callbackA cfg code none none exch fetchUser true s2).session = s2
    ∧ (callbackA cfg code none none exch fetchUser true s2).response
        = .redirect (cfg.frontendUrl ++ "/") [("error", axiosMsgA e)]
    ∧ t2.code_verifier = some v2
    ∧ t2.salesforce_domain
        = some (salesforceDomainB (jsOr d2 "production") (jsOr cd2 ""))
    ∧ (callbackB cfg code none none exch fetchUser true t2).exchVerifier = some v2
    ∧ (callbackB cfg code none none exch fetchUser true t2).session = t2
    ∧ (callbackB cfg code none none exch fetchUser true t2).response
        = .redirect cfg.frontendUrl [("error", axiosMsgB e)] := by
  subst hs1 hs2 ht1 ht2
  have hstale2 : ∀ u c, exch u c v2 = .error e := fun u c => hstale u c v2 hne
  have hv2t : (v2 != "") = true := by simpa using hv2
  refine ⟨rfl, rfl, ?_, ?_, ?_, rfl, rfl, ?_, ?_, ?_⟩ <;>
    simp [loginA, loginB, callbackA, callbackB, CallbackOut.exchVerifier,
      jsTruthy_none, jsTruthy_some, hcode, hv2t, hstale2]

/-- Witness for c8_second_login_overwrites at two concrete logins followed
by a callback against a provider that rejects every verifier except the
first. -/
theorem c8_second_login_overwrites_witness :
    ((loginA cfgW (some "sandbox") none "ver2" "ch2" true
        (loginA cfgW (some "production") none "ver1" "ch1" true
          Session.empty).session).session).code_verifier = some "ver2"
    ∧ ((loginA cfgW (some "sandbox") none "ver2" "ch2" true
        (loginA cfgW (some "production") none "ver1" "ch1" true
          Session.empty).session).session).domain_type
        = some (jsOr (some "sandbox") "production")
    ∧ (callbackA cfgW (some "authcode") none none exchNever fetchNever true
        ((loginA cfgW (some "sandbox") none "ver2" "ch2" true
          (loginA cfgW (some "production") none "ver1" "ch1" true
            Session.empty).session).session)).exchVerifier = some "ver2"
    ∧ (callbackA cfgW (some "authcode") none none exchNever fetchNever true
        ((loginA cfgW (some "sandbox") none "ver2" "ch2" true
          (loginA cfgW (some "production") none "ver1" "ch1" true
            Session.empty).session).session)).session
        = ((loginA cfgW (some "sandbox") none "ver2" "ch2" true
          (loginA cfgW (some "production") none "ver1" "ch1" true
            Session.empty).session).session)
    ∧ (callbackA cfgW (some "authcode") none none exchNever fetchNever true
        ((loginA cfgW (some "sandbox") none "ver2" "ch2" true
          (loginA cfgW (some "production") none "ver1" "ch1" true
            Session.empty).session).session)).response
        = .redirect (cfgW.frontendUrl ++ "/") [("error", axiosMsgA {})]
    ∧ ((loginB cfgW (some "sandbox") none "ver2" "ch2" true
        (loginB cfgW (some "production") none "ver1" "ch1" true
          Session.empty).session).session).code_verifier = some "ver2"
    ∧ ((loginB cfgW (some "sandbox") none "ver2" "ch2" true
        (loginB cfgW (some "production") none "ver1" "ch1" true
          Session.empty).session).session).salesforce_domain
        = some (salesforceDomainB (jsOr (some "sandbox") "production")
            (jsOr none ""))
    ∧ (callbackB cfgW (some "authcode") none none exchNever fetchNever true
        ((loginB cfgW (some "sandbox") none "ver2" "ch2" true
          (loginB cfgW (some "production") none "ver1" "ch1" true
            Session.empty).session).session)).exchVerifier = some "ver2"
    ∧ (callbackB cfgW (some "authcode") none none exchNever fetchNever true
        ((loginB cfgW (some "sandbox") none "ver2" "ch2" true
          (loginB cfgW (some "production") none "ver1" "ch1" true
            Session.empty).session).session)).session
        = ((loginB cfgW (some "sandbox") none "ver2" "ch2" true
          (loginB cfgW (some "production") none "ver1" "ch1" true
            Session.empty).session).session)
    ∧ (callbackB cfgW (some "authcode") none none exchNever fetchNever true
        ((loginB cfgW (some "sandbox") none "ver2" "ch2" true
          (loginB cfgW (some "production") none "ver1" "ch1" true
            Session.empty).session).session)).response
        = .redirect cfgW.frontendUrl [("error", axiosMsgB {})] :=
  c8_second_login_overwrites cfgW (some "production") none (some "sandbox") none
    (some "authcode") "ver1" "ch1" "ver2" "ch2" exchNever fetchNever {}
    Session.empty
    ((loginA cfgW (some "production") none "ver1" "ch1" true Session.empty).session)
    ((loginA cfgW (some "sandbox") none "ver2" "ch2" true
      (loginA cfgW (some "production") none "ver1" "ch1" true
        Session.empty).session).session)
    ((loginB cfgW (some "production") none "ver1" "ch1" true Session.empty).session)
    ((loginB cfgW (some "sandbox") none "ver2" "ch2" true
      (loginB cfgW (some "production") none "ver1" "ch1" true
        Session.empty).session).session)
    (by decide) (by decide) (by decide)
    (fun _ _ _ _ => rfl) rfl rfl rfl rfl
